import Mathlib

/-!
Shallow embedding of the ATM simulator's `Account` class
(`src/ATM Stimulator/# ATM Machine Simulation in Python.py`).

Monetary values are exact rationals: the spec's data-model section asks for
fixed-point/decimal semantics and explicitly declines to reproduce the
source's floating-point rounding literally.  Transaction-history entries and
the `message` half of the `(success, message)` return tuples are modelled
structurally, one constructor per f-string template in the source, carrying
the values the source interpolates into the string.
-/

/-- A transaction-history entry.  The source appends the strings
`f"Withdrew ${amount:.2f}"`, `f"Deposited ${amount:.2f}"` and
`"PIN changed"`; each is modelled by its template with the interpolated
amount.  The PIN-change entry carries no data, exactly as the constant
string in the source carries none. -/
inductive TxRecord where
  | withdrew (amount : ℚ) : TxRecord
  | deposited (amount : ℚ) : TxRecord
  | pinChanged : TxRecord
  deriving DecidableEq, Repr

/-- The `message` half of the `(success, message)` tuples returned by the
`Account` methods, one constructor per message template in the source.
The success messages of `withdraw` and `deposit` carry the amount and the
new balance that the source interpolates into the string.  The spec's error
taxonomy maps onto these as: `InvalidAmount` is
`withdrawalAmountMustBePositive` / `depositAmountMustBePositive`,
`InsufficientFunds` is `insufficientFunds`, `AuthenticationFailed` is
`incorrectCurrentPin`, `InvalidPinFormat` is `newPinMustBe4Digits`. -/
inductive Msg where
  | withdrawalAmountMustBePositive : Msg
  | insufficientFunds : Msg
  | successfullyWithdrew (amount newBalance : ℚ) : Msg
  | depositAmountMustBePositive : Msg
  | successfullyDeposited (amount newBalance : ℚ) : Msg
  | incorrectCurrentPin : Msg
  | newPinMustBe4Digits : Msg
  | pinSuccessfullyChanged : Msg
  deriving DecidableEq, Repr

/-- The code points accepted by Python's `str.isdigit` — the characters
with Unicode Numeric_Type Decimal or Digit — as inclusive code-point
ranges, enumerated from CPython 3.11 (Unicode 14.0).  Besides the ASCII
digits 48–57 this includes, e.g., the superscript digits 178–179 and 185
and every other script's decimal digits. -/
def pyDigitRanges : List (Nat × Nat) :=
  [(48, 57), (178, 179), (185, 185), (1632, 1641), (1776, 1785),
   (1984, 1993), (2406, 2415), (2534, 2543), (2662, 2671), (2790, 2799),
   (2918, 2927), (3046, 3055), (3174, 3183), (3302, 3311), (3430, 3439),
   (3558, 3567), (3664, 3673), (3792, 3801), (3872, 3881), (4160, 4169),
   (4240, 4249), (4969, 4977), (6112, 6121), (6160, 6169), (6470, 6479),
   (6608, 6618), (6784, 6793), (6800, 6809), (6992, 7001), (7088, 7097),
   (7232, 7241), (7248, 7257), (8304, 8304), (8308, 8313), (8320, 8329),
   (9312, 9320), (9332, 9340), (9352, 9360), (9450, 9450), (9461, 9469),
   (9471, 9471), (10102, 10110), (10112, 10120), (10122, 10130), (42528, 42537),
   (43216, 43225), (43264, 43273), (43472, 43481), (43504, 43513), (43600, 43609),
   (44016, 44025), (65296, 65305), (66720, 66729), (68160, 68163), (68912, 68921),
   (69216, 69224), (69714, 69722), (69734, 69743), (69872, 69881), (69942, 69951),
   (70096, 70105), (70384, 70393), (70736, 70745), (70864, 70873), (71248, 71257),
   (71360, 71369), (71472, 71481), (71904, 71913), (72016, 72025), (72784, 72793),
   (73040, 73049), (73120, 73129), (92768, 92777), (92864, 92873), (93008, 93017),
   (120782, 120831), (123200, 123209), (123632, 123641), (125264, 125273), (127232, 127242),
   (130032, 130041)]

/-- One character of Python's `str.isdigit`: the code point lies in one of
the digit ranges. -/
def pyCharIsDigit (c : Char) : Bool :=
  pyDigitRanges.any (fun r => decide (r.1 ≤ c.toNat) && decide (c.toNat ≤ r.2))

/-- Python's `str.isdigit`: true iff the string is nonempty and every
character is a digit in Python's Unicode sense. -/
def pyIsdigit (s : String) : Bool :=
  s.length != 0 && s.toList.all pyCharIsDigit

/-- The string `s` is exactly four decimal digit characters `'0'`–`'9'`,
following the spec's words — the spec-side PIN format, to be compared with
what the code's guard accepts. -/
def isFourDigits (s : String) : Bool :=
  s.length == 4 && s.toList.all Char.isDigit

/-- The PIN format the source's guard actually accepts:
`new_pin.isdigit() and len(new_pin) == 4`. -/
def pyPinFormat (s : String) : Bool :=
  pyIsdigit s && s.length == 4

/-- The `Account` class: a PIN stored as a string, a balance, and the
transaction-history list (`__init__` fields, lines 14–16 of the source). -/
structure Account where
  pin : String
  balance : ℚ
  transaction_history : List TxRecord
  deriving DecidableEq, Repr

/-- `Account.__init__(pin, balance)`: stores the PIN and balance as given
(no validation) and starts with an empty history. -/
def Account.init (pin : String) (balance : ℚ) : Account :=
  { pin := pin, balance := balance, transaction_history := [] }

/-- `Account.check_balance`: returns the current balance, no side effects. -/
def Account.check_balance (a : Account) : ℚ :=
  a.balance

/-- `Account.withdraw(amount)`: rejects non-positive amounts, then amounts
above the balance; otherwise subtracts the amount, appends a withdrawal
record and reports the new balance.  Returns the `(success, message)` tuple
together with the updated object state. -/
def Account.withdraw (a : Account) (amount : ℚ) : (Bool × Msg) × Account :=
  if amount ≤ 0 then
    ((false, Msg.withdrawalAmountMustBePositive), a)
  else if amount > a.balance then
    ((false, Msg.insufficientFunds), a)
  else
    ((true, Msg.successfullyWithdrew amount (a.balance - amount)),
      { a with
          balance := a.balance - amount
          transaction_history := a.transaction_history ++ [TxRecord.withdrew amount] })

/-- `Account.deposit(amount)`: rejects non-positive amounts; otherwise adds
the amount, appends a deposit record and reports the new balance. -/
def Account.deposit (a : Account) (amount : ℚ) : (Bool × Msg) × Account :=
  if amount ≤ 0 then
    ((false, Msg.depositAmountMustBePositive), a)
  else
    ((true, Msg.successfullyDeposited amount (a.balance + amount)),
      { a with
          balance := a.balance + amount
          transaction_history := a.transaction_history ++ [TxRecord.deposited amount] })

/-- `Account.change_pin(old_pin, new_pin)`: checks the old PIN first, then
the `new_pin.isdigit() and len(new_pin) == 4` format guard; on success
replaces the PIN and appends the constant `"PIN changed"` record. -/
def Account.change_pin (a : Account) (old_pin new_pin : String) : (Bool × Msg) × Account :=
  if old_pin != a.pin then
    ((false, Msg.incorrectCurrentPin), a)
  else if !pyIsdigit new_pin || new_pin.length != 4 then
    ((false, Msg.newPinMustBe4Digits), a)
  else
    ((true, Msg.pinSuccessfullyChanged),
      { a with
          pin := new_pin
          transaction_history := a.transaction_history ++ [TxRecord.pinChanged] })

/-- `Account.get_transaction_history`: returns the list of transaction
history.  In the source this is the internal `self.transaction_history`
list object itself, not a copy. -/
def Account.get_transaction_history (a : Account) : List TxRecord :=
  a.transaction_history

/-- A withdraw-or-deposit request, for reasoning about sequences of the
two balance-mutating operations. -/
inductive Op where
  | withdraw (amount : ℚ) : Op
  | deposit (amount : ℚ) : Op
  deriving DecidableEq, Repr

/-- Apply one withdraw/deposit request to an account. -/
def applyOp (a : Account) : Op → (Bool × Msg) × Account
  | Op.withdraw amt => a.withdraw amt
  | Op.deposit amt => a.deposit amt

/-- Run a sequence of withdraw/deposit requests left to right. -/
def runOps (a : Account) : List Op → Account
  | [] => a
  | op :: ops => runOps (applyOp a op).2 ops

/-- Sum of the amounts of the deposits in `ops` that succeed when the
sequence is run from `a`. -/
def succDeposits (a : Account) : List Op → ℚ
  | [] => 0
  | op :: ops =>
      (match op with
       | Op.deposit amt => if (applyOp a op).1.1 then amt else 0
       | Op.withdraw _ => 0) + succDeposits (applyOp a op).2 ops

/-- Sum of the amounts of the withdrawals in `ops` that succeed when the
sequence is run from `a`. -/
def succWithdrawals (a : Account) : List Op → ℚ
  | [] => 0
  | op :: ops =>
      (match op with
       | Op.withdraw amt => if (applyOp a op).1.1 then amt else 0
       | Op.deposit _ => 0) + succWithdrawals (applyOp a op).2 ops

/-- Number of requests in `ops` that succeed when the sequence is run
from `a`. -/
def succCount (a : Account) : List Op → ℕ
  | [] => 0
  | op :: ops =>
      (if (applyOp a op).1.1 then 1 else 0) + succCount (applyOp a op).2 ops

/-- Any `Account` operation, including PIN changes, for reasoning about
every reachable state. -/
inductive FullOp where
  | withdraw (amount : ℚ) : FullOp
  | deposit (amount : ℚ) : FullOp
  | changePin (old_pin new_pin : String) : FullOp
  deriving DecidableEq, Repr

/-- Apply one operation to an account. -/
def applyFullOp (a : Account) : FullOp → (Bool × Msg) × Account
  | FullOp.withdraw amt => a.withdraw amt
  | FullOp.deposit amt => a.deposit amt
  | FullOp.changePin o n => a.change_pin o n

/-- Run a sequence of operations left to right. -/
def runFullOps (a : Account) : List FullOp → Account
  | [] => a
  | op :: ops => runFullOps (applyFullOp a op).2 ops

/-- The account the program itself constructs:
`Account(pin="1234", balance=1000.00)`. -/
def sampleAccount : Account := Account.init "1234" 1000

/-- The failure condition of the format guard of `change_pin` is exactly
the negation of the guard's accepted format `pyPinFormat`. -/
theorem change_pin_format_guard (n : String) :
    (!pyIsdigit n || n.length != 4) = !pyPinFormat n := by
  cases h1 : pyIsdigit n <;> cases h2 : n.length == 4 <;>
    simp_all [pyPinFormat, bne]

/-- A successful `change_pin` only installs a PIN passing the source's
format guard. -/
theorem change_pin_success_format (a : Account) (o n : String)
    (h : (a.change_pin o n).1.1 = true) : pyPinFormat n = true := by
  unfold Account.change_pin at h
  by_cases h1 : (o != a.pin) = true
  · simp [h1] at h
  · by_cases h2 : (!pyIsdigit n || n.length != 4) = true
    · simp [h1, h2] at h
    · rw [change_pin_format_guard] at h2
      simpa using h2

/-- A successful `change_pin` appends exactly the constant record. -/
theorem change_pin_success_history (a : Account) (o n : String)
    (h : (a.change_pin o n).1.1 = true) :
    ((a.change_pin o n).2).transaction_history
      = a.transaction_history ++ [TxRecord.pinChanged] := by
  unfold Account.change_pin at h ⊢
  split_ifs at h ⊢
  simp_all

/-- One step of `applyFullOp` preserves the guard's PIN format. -/
theorem applyFullOp_pin (a : Account) (op : FullOp)
    (h : pyPinFormat a.pin = true) :
    pyPinFormat ((applyFullOp a op).2).pin = true := by
  cases op with
  | withdraw amt =>
      simp only [applyFullOp, Account.withdraw]
      split_ifs <;> simpa
  | deposit amt =>
      simp only [applyFullOp, Account.deposit]
      split_ifs <;> simpa
  | changePin o n =>
      simp only [applyFullOp, Account.change_pin, change_pin_format_guard]
      split_ifs with h1 h2 <;> simp_all

/-- One withdraw/deposit step, restated as a ledger delta. -/
theorem applyOp_step (a : Account) (op : Op) :
    ((applyOp a op).2).balance
      = a.balance
        + (match op with
           | Op.deposit amt => if (applyOp a op).1.1 then amt else 0
           | Op.withdraw _ => 0)
        - (match op with
           | Op.withdraw amt => if (applyOp a op).1.1 then amt else 0
           | Op.deposit _ => 0) ∧
    ((applyOp a op).2).transaction_history.length
      = a.transaction_history.length + (if (applyOp a op).1.1 then 1 else 0) := by
  cases op with
  | withdraw amt =>
      simp only [applyOp, Account.withdraw]
      split_ifs <;> simp_all
  | deposit amt =>
      simp only [applyOp, Account.deposit]
      split_ifs <;> simp_all

/-- Ledger identity for a run of withdraw/deposit requests from any state. -/
theorem runOps_ledger (ops : List Op) : ∀ a : Account,
    (runOps a ops).balance
      = a.balance + succDeposits a ops - succWithdrawals a ops ∧
    (runOps a ops).transaction_history.length
      = a.transaction_history.length + succCount a ops := by
  induction ops with
  | nil => intro a; simp [runOps, succDeposits, succWithdrawals, succCount]
  | cons op ops ih =>
      intro a
      obtain ⟨hb, hl⟩ := ih (applyOp a op).2
      obtain ⟨sb, sl⟩ := applyOp_step a op
      constructor
      · show (runOps (applyOp a op).2 ops).balance = _
        rw [hb, sb]
        simp only [succDeposits, succWithdrawals]
        ring
      · show (runOps (applyOp a op).2 ops).transaction_history.length = _
        rw [hl, sl]
        simp only [succCount]
        ring

/-- C1: for every amount ≤ 0, withdraw and deposit both fail with the
invalid-amount message and leave the whole account state unchanged; for
every amount above the balance (of an account whose balance is
non-negative, as the invariant guarantees), withdraw fails with the
insufficient-funds message and leaves the state unchanged; consequently
`check_balance` and `get_transaction_history` after any failed withdraw or
deposit return the same values as before the attempt. -/
theorem failed_operations_are_atomic (a : Account) (amount : ℚ) :
    (amount ≤ 0 →
      a.withdraw amount = ((false, Msg.withdrawalAmountMustBePositive), a) ∧
      a.deposit amount = ((false, Msg.depositAmountMustBePositive), a)) ∧
    (0 ≤ a.balance → amount > a.balance →
      a.withdraw amount = ((false, Msg.insufficientFunds), a)) ∧
    ((a.withdraw amount).1.1 = false →
      ((a.withdraw amount).2).check_balance = a.check_balance ∧
      ((a.withdraw amount).2).get_transaction_history = a.get_transaction_history) ∧
    ((a.deposit amount).1.1 = false →
      ((a.deposit amount).2).check_balance = a.check_balance ∧
      ((a.deposit amount).2).get_transaction_history = a.get_transaction_history) := by
  refine ⟨?_, ?_, ?_, ?_⟩
  · intro h
    constructor <;> simp [Account.withdraw, Account.deposit, h]
  · intro h0 h
    have : ¬ amount ≤ 0 := by linarith
    simp [Account.withdraw, this, h]
  · intro h
    unfold Account.withdraw at h ⊢
    split_ifs at h ⊢ <;>
      simp_all [Account.check_balance, Account.get_transaction_history]
  · intro h
    unfold Account.deposit at h ⊢
    split_ifs at h ⊢
    simp_all [Account.check_balance, Account.get_transaction_history]

/-- Witness for C1 at the program's own account and concrete amounts. -/
theorem failed_operations_are_atomic_witness :
    sampleAccount.withdraw (-5) = ((false, Msg.withdrawalAmountMustBePositive), sampleAccount) ∧
    sampleAccount.withdraw 2000 = ((false, Msg.insufficientFunds), sampleAccount) :=
  ⟨((failed_operations_are_atomic sampleAccount (-5)).1 (by norm_num)).1,
   (failed_operations_are_atomic sampleAccount 2000).2.1 (by decide) (by decide)⟩

/-- C2: starting from any state with non-negative balance, every operation
(withdraw, deposit, change_pin with any arguments; check_balance and
get_transaction_history do not modify the account at all) leaves the
balance non-negative, and a withdrawal that would make the balance
negative is rejected. -/
theorem balance_nonneg_invariant (a : Account) (h : 0 ≤ a.balance) :
    (∀ amount : ℚ, 0 ≤ ((a.withdraw amount).2).balance ∧
      (a.balance < amount → (a.withdraw amount).1.1 = false)) ∧
    (∀ amount : ℚ, 0 ≤ ((a.deposit amount).2).balance) ∧
    (∀ old_pin new_pin : String, 0 ≤ ((a.change_pin old_pin new_pin).2).balance) ∧
    0 ≤ a.check_balance := by
  refine ⟨?_, ?_, ?_, h⟩
  · intro amount
    constructor
    · unfold Account.withdraw
      split_ifs with h1 h2 <;> simp <;> linarith
    · intro hlt
      unfold Account.withdraw
      split_ifs <;> simp_all
  · intro amount
    unfold Account.deposit
    split_ifs with h1 <;> simp <;> linarith
  · intro old_pin new_pin
    unfold Account.change_pin
    split_ifs <;> simpa

/-- Witness for C2 at the program's own account. -/
theorem balance_nonneg_invariant_witness :
    0 ≤ ((sampleAccount.withdraw 200).2).balance :=
  ((balance_nonneg_invariant sampleAccount (by decide)).1 200).1

/-- C3 counterexample: `__init__` performs no PIN validation, so the state
constructed with the two-character PIN "12" is a reachable account state
whose pin field is not a string of exactly four decimal digits; and even
from the program's own account, `change_pin` called with the matching old
PIN and a new PIN of four superscript-two characters — each accepted by
Python's `isdigit` — succeeds and installs a pin that is not four decimal
digits. -/
theorem pin_always_four_digits_counterexample :
    isFourDigits (Account.init "12" 0).pin = false ∧
    (sampleAccount.change_pin "1234" "²²²²").1.1 = true ∧
    isFourDigits ((sampleAccount.change_pin "1234" "²²²²").2).pin = false := by
  exact ⟨by decide, by decide, by decide⟩

/-- C3 (amended): the pin is not always four decimal digits.  The invariant
the code actually maintains is the format of its own guard: provided the
account is constructed with a pin that is four characters long with every
character accepted by Python's `isdigit` — as the program's own "1234"
is — every state reachable by any sequence of operations still has a pin
of that format, and `change_pin` only ever installs such pins.  The guard
also accepts non-decimal digit characters such as the superscript two, so
"exactly four decimal digits" is not preserved. -/
theorem pin_four_digits_invariant (a : Account) (h : pyPinFormat a.pin = true) :
    (∀ ops : List FullOp, pyPinFormat ((runFullOps a ops)).pin = true) ∧
    (∀ old_pin new_pin : String,
      (a.change_pin old_pin new_pin).1.1 = true → pyPinFormat new_pin = true) := by
  constructor
  · intro ops
    induction ops generalizing a with
    | nil => simpa [runFullOps] using h
    | cons op ops ih => exact ih (applyFullOp a op).2 (applyFullOp_pin a op h)
  · intro old_pin new_pin hs
    exact change_pin_success_format a old_pin new_pin hs

/-- Witness for C3 (amended) on the program's own account and a PIN change. -/
theorem pin_four_digits_invariant_witness :
    pyPinFormat ((runFullOps sampleAccount
      [FullOp.changePin "1234" "5678", FullOp.withdraw 200])).pin = true :=
  (pin_four_digits_invariant sampleAccount (by decide)).1
    [FullOp.changePin "1234" "5678", FullOp.withdraw 200]

/-- C4: each operation leaves the history equal to the old history with
exactly one record appended at the end when it succeeds and with nothing
appended when it fails; in particular existing records are never
reordered, modified or removed. -/
theorem history_append_only (a : Account) (amount : ℚ) (old_pin new_pin : String) :
    (a.withdraw amount).2.transaction_history
      = a.transaction_history
        ++ (if (a.withdraw amount).1.1 then [TxRecord.withdrew amount] else []) ∧
    (a.deposit amount).2.transaction_history
      = a.transaction_history
        ++ (if (a.deposit amount).1.1 then [TxRecord.deposited amount] else []) ∧
    (a.change_pin old_pin new_pin).2.transaction_history
      = a.transaction_history
        ++ (if (a.change_pin old_pin new_pin).1.1 then [TxRecord.pinChanged] else []) := by
  refine ⟨?_, ?_, ?_⟩
  · unfold Account.withdraw
    split_ifs <;> simp_all
  · unfold Account.deposit
    split_ifs <;> simp_all
  · unfold Account.change_pin
    split_ifs <;> simp_all

/-- C5: for every sequence of withdraw/deposit requests run on a freshly
constructed account, the final balance equals the initial balance plus the
sum of the successful deposit amounts minus the sum of the successful
withdrawal amounts, and the length of the transaction history equals the
number of successful operations. -/
theorem sequence_ledger (p : String) (b : ℚ) (ops : List Op) :
    (runOps (Account.init p b) ops).balance
      = b + succDeposits (Account.init p b) ops - succWithdrawals (Account.init p b) ops ∧
    (runOps (Account.init p b) ops).transaction_history.length
      = succCount (Account.init p b) ops := by
  obtain ⟨hb, hl⟩ := runOps_ledger ops (Account.init p b)
  exact ⟨by simpa [Account.init] using hb, by simpa [Account.init] using hl⟩

/-- C6: for every amount with 0 < amount ≤ balance, withdraw succeeds, the
balance decreases by exactly that amount, exactly one withdrawal record
carrying the amount is appended, and the returned message reports the new
balance. -/
theorem withdraw_success (a : Account) (amount : ℚ)
    (h1 : 0 < amount) (h2 : amount ≤ a.balance) :
    a.withdraw amount
      = ((true, Msg.successfullyWithdrew amount (a.balance - amount)),
         { a with
             balance := a.balance - amount
             transaction_history := a.transaction_history ++ [TxRecord.withdrew amount] }) := by
  unfold Account.withdraw
  have e1 : ¬ amount ≤ 0 := by linarith
  have e2 : ¬ amount > a.balance := by linarith
  simp [e1, e2]

/-- Witness for C6: withdrawing 200 from the program's own account. -/
theorem withdraw_success_witness :
    (sampleAccount.withdraw 200).1.1 = true ∧
    ((sampleAccount.withdraw 200).2).balance = 800 := by
  rw [withdraw_success sampleAccount 200 (by norm_num) (by decide)]
  refine ⟨rfl, ?_⟩
  show sampleAccount.balance - 200 = 800
  norm_num [sampleAccount, Account.init]

/-- C7 counterexample: with the matching old PIN and a new PIN of four
superscript-two characters — which is not four decimal digits —
`change_pin` does not fail with the format error: Python's `isdigit`
accepts the superscript digits and the length is 4, so the call succeeds
and replaces the stored pin. -/
theorem change_pin_format_counterexample :
    isFourDigits "²²²²" = false ∧
    sampleAccount.change_pin "1234" "²²²²"
      = ((true, Msg.pinSuccessfullyChanged),
         { pin := "²²²²", balance := 1000, transaction_history := [TxRecord.pinChanged] }) := by
  exact ⟨by decide, by decide⟩

/-- C7 (amended): `change_pin` fails with the incorrect-current-PIN message
when the old PIN does not match the stored pin; when the old PIN matches
it fails with the PIN-format message exactly when the new PIN fails the
source's `isdigit`-and-length-4 guard — a guard that accepts some strings
that are not four decimal digits, such as four superscript twos; the whole
state (in particular the stored pin) is unchanged in both failure cases;
and with a matching old PIN and a guard-passing new PIN it succeeds and
installs the new pin. -/
theorem change_pin_cases (a : Account) (old_pin new_pin : String) :
    (old_pin ≠ a.pin →
      a.change_pin old_pin new_pin = ((false, Msg.incorrectCurrentPin), a)) ∧
    (old_pin = a.pin → pyPinFormat new_pin = false →
      a.change_pin old_pin new_pin = ((false, Msg.newPinMustBe4Digits), a)) ∧
    (old_pin = a.pin → pyPinFormat new_pin = true →
      a.change_pin old_pin new_pin
        = ((true, Msg.pinSuccessfullyChanged),
           { a with
               pin := new_pin
               transaction_history := a.transaction_history ++ [TxRecord.pinChanged] })) := by
  refine ⟨?_, ?_, ?_⟩
  · intro h
    simp [Account.change_pin, h]
  · intro h hf
    unfold Account.change_pin
    rw [change_pin_format_guard]
    simp [h, hf]
  · intro h hf
    unfold Account.change_pin
    rw [change_pin_format_guard]
    simp [h, hf]

/-- Witness for C7: the three cases at concrete PINs on the program's own
account. -/
theorem change_pin_cases_witness :
    sampleAccount.change_pin "9999" "5678" = ((false, Msg.incorrectCurrentPin), sampleAccount) ∧
    sampleAccount.change_pin "1234" "56" = ((false, Msg.newPinMustBe4Digits), sampleAccount) ∧
    ((sampleAccount.change_pin "1234" "5678").2).pin = "5678" := by
  refine ⟨(change_pin_cases sampleAccount "9999" "5678").1 (by decide),
          (change_pin_cases sampleAccount "1234" "56").2.1 (by decide) (by decide), ?_⟩
  rw [(change_pin_cases sampleAccount "1234" "5678").2.2 (by decide) (by decide)]

/-- C8: the history record appended by a successful `change_pin` is the
constant "PIN changed" record, so for any two successful calls — with any
accounts and any old/new PIN values — the appended parts of the histories
are identical, and no PIN value can leak into the history. -/
theorem pin_change_record_leaks_nothing (a1 a2 : Account) (o1 n1 o2 n2 : String)
    (h1 : (a1.change_pin o1 n1).1.1 = true) (h2 : (a2.change_pin o2 n2).1.1 = true) :
    ((a1.change_pin o1 n1).2).transaction_history.drop a1.transaction_history.length
      = ((a2.change_pin o2 n2).2).transaction_history.drop a2.transaction_history.length := by
  rw [change_pin_success_history a1 o1 n1 h1, change_pin_success_history a2 o2 n2 h2,
    List.drop_left, List.drop_left]

/-- Witness for C8: two successful PIN changes with different credentials
append the same record. -/
theorem pin_change_record_leaks_nothing_witness :
    ((sampleAccount.change_pin "1234" "5678").2).transaction_history.drop
        sampleAccount.transaction_history.length
      = (((Account.init "0000" 5).change_pin "0000" "1111").2).transaction_history.drop
        (Account.init "0000" 5).transaction_history.length :=
  pin_change_record_leaks_nothing sampleAccount (Account.init "0000" 5)
    "1234" "5678" "0000" "1111" (by decide) (by decide)

/-- C9: `get_transaction_history` returns the records in insertion order —
but it returns the account's internal `transaction_history` list object
itself, not a copy or an immutable view, so in the Python source a caller
can mutate the account's stored history through the returned list. -/
theorem get_transaction_history_is_internal_list (a : Account) :
    a.get_transaction_history = a.transaction_history := rfl

/-- C10: `change_pin` checks authentication before PIN format — when the
old PIN is wrong and the new PIN is also not four decimal digits, the
reported failure is the authentication failure. -/
theorem auth_checked_before_format (a : Account) (old_pin new_pin : String)
    (h1 : old_pin ≠ a.pin) (h2 : isFourDigits new_pin = false) :
    a.change_pin old_pin new_pin = ((false, Msg.incorrectCurrentPin), a) := by
  simp [Account.change_pin, h1]

/-- Witness for C10 at a wrong old PIN and a malformed new PIN. -/
theorem auth_checked_before_format_witness :
    sampleAccount.change_pin "0000" "12" = ((false, Msg.incorrectCurrentPin), sampleAccount) :=
  auth_checked_before_format sampleAccount "0000" "12" (by decide) (by decide)
